import Mathlib

/-!
Shallow embedding of `src/providers/paypal-payment/service.ts`
(`PaypalPaymentProviderService`, a Medusa payment provider backed by the
PayPal orders/payments API) together with proofs about the claims of the
specification.

Modelling conventions:
* Remote-API response shapes (`PaypalOrder`, purchase units, payments) are
  records of `Option` fields, mirroring the optional fields of the SDK
  types the service reads.
* The framework input objects and the `data` session payload are modelled
  as JavaScript-style objects: association lists `Obj` of string keys and
  `JVal` values, with object-spread rendered as list append and key lookup
  giving the last (overriding) occurrence, as in `{...a, k: v}`.
* Remote calls are not performed; instead every operation takes a
  `PaypalEnv` of response functions and returns, next to its
  `Except JsError` result, the trace (`List RemoteCall`) of remote calls it
  issued, in order.  A call that the remote side answers with an error is
  still in the trace (it was issued).
* JavaScript exceptions are `JsError`: `typeError` for raw runtime
  `TypeError`s (property access on `undefined`), `thrown` for
  `throw new Error(msg)`, `medusa` for `MedusaError` (the string literals
  keep the source text, with apostrophes elided).
* String-enum values from the SDK keep their wire values
  (`OrderStatus.Created = "CREATED"` and so on).
-/

/- Values of the PayPal SDK `OrderStatus` string enum, as read by the
`switch` in `getPaymentStatus` and the comparisons in `cancelPayment`. -/
namespace PaypalOrderStatus

def Created : String := "CREATED"

def Saved : String := "SAVED"

def Approved : String := "APPROVED"

def PayerActionRequired : String := "PAYER_ACTION_REQUIRED"

def Voided : String := "VOIDED"

def Completed : String := "COMPLETED"

end PaypalOrderStatus

/-- An authorization entry of a purchase unit's `payments.authorizations`
list; the service only reads its optional `id`. -/
structure PaypalAuthorization where
  id : Option String
  deriving DecidableEq, Repr

/-- A capture entry of a purchase unit's `payments.captures` list; the
service only reads its optional `id`. -/
structure PaypalCapture where
  id : Option String
  deriving DecidableEq, Repr

/-- The `payments` sub-object of a purchase unit. -/
structure PaypalPayments where
  authorizations : Option (List PaypalAuthorization)
  captures : Option (List PaypalCapture)
  deriving DecidableEq, Repr

/-- The `amount` of a purchase unit; the service only reads
`currencyCode`. -/
structure PaypalAmount where
  currencyCode : Option String
  deriving DecidableEq, Repr

/-- A purchase unit of a remote order, restricted to the fields the
service reads. -/
structure PurchaseUnit where
  amount : Option PaypalAmount
  invoiceId : Option String
  payments : Option PaypalPayments
  deriving DecidableEq, Repr

/-- The remote order (`Order` of the PayPal SDK), restricted to the fields
the service reads. -/
structure PaypalOrder where
  id : Option String
  status : Option String
  purchaseUnits : Option (List PurchaseUnit)
  deriving DecidableEq, Repr

/-- JavaScript truthiness of an optional string: `undefined` and the empty
string are falsy, everything else truthy.  Used for `result.id`,
`!!invoiceId` and the option checks of the constructor. -/
def truthyStr : Option String → Bool
  | some s => !(s == "")
  | none => false

/-- A JavaScript value as stored in the framework's duck-typed input and
`data` objects: strings, numbers, the embedded remote order, `undefined`,
and nested objects. -/
inductive JVal where
  | str (s : String)
  | num (n : Int)
  | order (o : PaypalOrder)
  | jsUndefined
  | obj (fields : List (String × JVal))

/-- A JavaScript object: ordered key/value fields; a later field with the
same key overrides an earlier one (object-spread semantics). -/
abbrev Obj := List (String × JVal)

/-- Key lookup in an `Obj`: the *last* binding of the key wins, matching
`{...a, k: v}` overriding semantics when spread is modelled as append. -/
def getKey : Obj → String → Option JVal
  | [], _ => none
  | (k, v) :: rest, key =>
    match getKey rest key with
    | some v2 => some v2
    | none => if key == k then some v else none

/-- The embedded remote order of a session input:
`input.data!.paypalOrder as PaypalOrder`.  `none` stands for the inputs on
which that property chain does not yield an order object. -/
def sessionOrder? (input : Obj) : Option PaypalOrder :=
  match getKey input "data" with
  | some (.obj d) =>
    match getKey d "paypalOrder" with
    | some (.order o) => some o
    | _ => none
  | _ => none

/-- A JavaScript exception: a raw runtime `TypeError`, a
`throw new Error(msg)`, or a `MedusaError`. -/
inductive JsError where
  | typeError (msg : String)
  | thrown (msg : String)
  | medusa (msg : String)
  deriving DecidableEq, Repr

/-- An error answer of the remote API: an `ApiError` carrying an HTTP
status code and headers, or any other failure. -/
inductive RemoteError where
  | api (statusCode : Int) (headers : String)
  | other
  deriving DecidableEq, Repr

/-- An amount object sent to the remote API.

Modelled from the spec: `convertAmount` lives in
`src/providers/paypal-payment/formatters.ts`, which is not part of the
sources; the spec only says the amount is "converted" to the purchase
unit's currency, so the conversion is kept abstract as a record of the
raw amount and the currency code it was converted with. -/
structure Money where
  currencyCode : Option String
  value : Int
  deriving DecidableEq, Repr

/-- Modelled from the spec: the amount/currency conversion of
`formatters.ts` (absent from the sources), kept as the pairing of the raw
amount with the target currency code. -/
def convertAmount (amount : Int) (currencyCode : Option String) : Money :=
  { currencyCode := currencyCode, value := amount }

/-- One remote call issued by the service, with the arguments the service
passes (identifiers may be `undefined`, hence `Option String`). -/
inductive RemoteCall where
  | createOrder (intent : String) (amount : Money)
  | getOrder (id : Option String)
  | captureAuthorizedPayment (authorizationId : Option String)
  | voidPayment (authorizationId : Option String)
  | refundCapturedPayment (captureId : Option String) (body : Option Money)
  | patchOrder (id : Option String) (amount : Money)
  deriving DecidableEq, Repr

/-- The remote side's answers, one function per endpoint the service
calls.  The service is deterministic given these answers. -/
structure PaypalEnv where
  createOrderRes : Except RemoteError PaypalOrder
  getOrderRes : Option String → Except RemoteError PaypalOrder
  captureRes : Option String → Except RemoteError Unit
  voidRes : Option String → Except RemoteError Unit
  refundRes : Option String → Option Money → Except RemoteError Unit
  patchRes : Option String → Money → Except RemoteError Unit

/-- Output of the operations that return a refreshed session payload
(`{ data: ... }`). -/
structure PaymentOutput where
  data : Obj

/-- Output of `getPaymentStatus` (`{ status: ... }`). -/
structure StatusOutput where
  status : String
  deriving DecidableEq, Repr

/-- Output of `authorizePayment` (`{ data: ..., status: ... }`). -/
structure AuthorizeOutput where
  data : Obj
  status : String

/-- Output of `initiatePayment` (`{ id: ..., data: ... }`). -/
structure InitiateOutput where
  id : String
  data : Obj

/-- `retrievePayment`: reads the stored order id, fetches the order, and
on a truthy `result.id` returns `{ data: {...paymentSessionData,
paypalOrderId: result.id, paypalOrder: result} }`.  An `ApiError` is
logged and re-thrown as `Error("Initialize payment failed")`; every other
failure (including a missing id on the response and `TypeError`s inside
the `try`) falls through to `Error("Initialize payment failed.")`. -/
def retrievePayment (env : PaypalEnv) (input : Obj) :
    Except JsError PaymentOutput × List RemoteCall :=
  match sessionOrder? input with
  | none => (.error (.thrown "Initialize payment failed."), [])
  | some o =>
    match env.getOrderRes o.id with
    | .error (.api _ _) =>
      (.error (.thrown "Initialize payment failed"), [.getOrder o.id])
    | .error .other =>
      (.error (.thrown "Initialize payment failed."), [.getOrder o.id])
    | .ok result =>
      match result.id with
      | some rid =>
        if rid == "" then
          (.error (.thrown "Initialize payment failed."), [.getOrder o.id])
        else
          (.ok ⟨input ++ [("paypalOrderId", .str rid), ("paypalOrder", .order result)]⟩,
            [.getOrder o.id])
      | none =>
        (.error (.thrown "Initialize payment failed."), [.getOrder o.id])

/-- The `switch (paypalOrder.status)` of `getPaymentStatus`, rendered as
the equivalent sequential comparison chain; the `default` case (any other
or absent status) yields `"pending"`. -/
def mapOrderStatus (status : Option String) : String :=
  if status = some PaypalOrderStatus.Created then "pending"
  else if status = some PaypalOrderStatus.Saved then "requires_more"
  else if status = some PaypalOrderStatus.Approved then "requires_more"
  else if status = some PaypalOrderStatus.PayerActionRequired then "requires_more"
  else if status = some PaypalOrderStatus.Voided then "canceled"
  else if status = some PaypalOrderStatus.Completed then "authorized"
  else "pending"

/-- `getPaymentStatus`: fetches the order via `retrievePayment` (errors
propagate unchanged) and maps the fetched order's status through the
switch. -/
def getPaymentStatus (env : PaypalEnv) (input : Obj) :
    Except JsError StatusOutput × List RemoteCall :=
  match retrievePayment env input with
  | (.error e, t) => (.error e, t)
  | (.ok out, t) =>
    match getKey out.data "paypalOrder" with
    | some (.order o) => (.ok ⟨mapOrderStatus o.status⟩, t)
    | _ => (.error (.typeError "getPaymentStatus: paypalOrder is not an order"), t)

/-- `capturePayment`: requires `purchaseUnits?.length`,
`purchaseUnits[0].payments` and `payments.authorizations?.length` (else it
throws the generic capture error without any remote call); then captures
against the first authorization's id and returns `retrievePayment`'s
result, any failure inside the `try` (remote error or a failing re-fetch)
becoming the generic capture error. -/
def capturePayment (env : PaypalEnv) (input : Obj) :
    Except JsError PaymentOutput × List RemoteCall :=
  match sessionOrder? input with
  | none => (.error (.typeError "capturePayment: cannot read purchaseUnits of undefined"), [])
  | some o =>
    match o.purchaseUnits with
    | some (pu0 :: _) =>
      match pu0.payments with
      | some pay =>
        match pay.authorizations with
        | some (a0 :: _) =>
          match env.captureRes a0.id with
          | .error _ =>
            (.error (.thrown "An error occurred in capturePayment"),
              [.captureAuthorizedPayment a0.id])
          | .ok _ =>
            match retrievePayment env input with
            | (.ok out, t) => (.ok out, .captureAuthorizedPayment a0.id :: t)
            | (.error _, t) =>
              (.error (.thrown "An error occurred in capturePayment"),
                .captureAuthorizedPayment a0.id :: t)
        | _ => (.error (.thrown "An error occurred in capturePayment"), [])
      | none => (.error (.thrown "An error occurred in capturePayment"), [])
    | _ => (.error (.thrown "An error occurred in capturePayment"), [])

/-- Truthiness of `pu.payments?.captures?.length`, the predicate of the
`purchaseUnits.some(...)` checks in `cancelPayment` and
`refundPayment`. -/
def hasCaptures (pu : PurchaseUnit) : Bool :=
  match pu.payments with
  | some pay =>
    match pay.captures with
    | some (_ :: _) => true
    | _ => false
  | none => false

/-- `cancelPayment`: requires `purchaseUnits?.length` and
`purchaseUnits[0].payments` (else the generic cancel error, no remote
call).  If the order is already voided, or completed with a truthy
`invoiceId` on the first purchase unit, it returns `retrievePayment`'s
result unchanged (read-only re-fetch, no mutation).  Otherwise, inside a
`try`: if any purchase unit has captures it refunds
`purchaseUnits[0].payments.captures![0]` (a raw `TypeError` when the first
purchase unit has none, caught by the `catch`); else it voids
`purchaseUnits[0].payments!.authorizations![0]` (same caveat); then
returns the re-fetch, every caught failure becoming the generic cancel
error. -/
def cancelPayment (env : PaypalEnv) (input : Obj) :
    Except JsError PaymentOutput × List RemoteCall :=
  match sessionOrder? input with
  | none => (.error (.typeError "cancelPayment: cannot read purchaseUnits of undefined"), [])
  | some o =>
    match o.purchaseUnits with
    | some (pu0 :: rest) =>
      match pu0.payments with
      | some pay =>
        let isAlreadyCanceled := o.status == some PaypalOrderStatus.Voided
        let isCanceledAndFullyRefund :=
          o.status == some PaypalOrderStatus.Completed && truthyStr pu0.invoiceId
        if isAlreadyCanceled || isCanceledAndFullyRefund then
          retrievePayment env input
        else
          let isAlreadyCaptured := (pu0 :: rest).any hasCaptures
          if isAlreadyCaptured then
            match pay.captures with
            | some (c0 :: _) =>
              match env.refundRes c0.id none with
              | .error _ =>
                (.error (.thrown "An error occurred in cancelPayment"),
                  [.refundCapturedPayment c0.id none])
              | .ok _ =>
                match retrievePayment env input with
                | (.ok out, t) => (.ok out, .refundCapturedPayment c0.id none :: t)
                | (.error _, t) =>
                  (.error (.thrown "An error occurred in cancelPayment"),
                    .refundCapturedPayment c0.id none :: t)
            | _ =>
              (.error (.thrown "An error occurred in cancelPayment"), [])
          else
            match pay.authorizations with
            | some (a0 :: _) =>
              match env.voidRes a0.id with
              | .error _ =>
                (.error (.thrown "An error occurred in cancelPayment"),
                  [.voidPayment a0.id])
              | .ok _ =>
                match retrievePayment env input with
                | (.ok out, t) => (.ok out, .voidPayment a0.id :: t)
                | (.error _, t) =>
                  (.error (.thrown "An error occurred in cancelPayment"),
                    .voidPayment a0.id :: t)
            | _ =>
              (.error (.thrown "An error occurred in cancelPayment"), [])
      | none => (.error (.thrown "An error occurred in cancelPayment"), [])
    | _ => (.error (.thrown "An error occurred in cancelPayment"), [])

/-- `refundPayment`: requires `purchaseUnits?.length` and
`purchaseUnits[0].payments` (else the generic refund error, no remote
call).  If no purchase unit has captures it throws
`Error("Cannot refund an uncaptured payment")`.  Otherwise it reads
`purchaseUnit.payments?.captures![0].id` *outside* any `try`, so when the
first purchase unit has no captures (while a later one does) a raw
`TypeError` escapes; else it refunds the first capture with the converted
amount and returns the re-fetch, failures inside the `try` becoming the
generic refund error.  `amount` is the `amount` field of the input. -/
def refundPayment (env : PaypalEnv) (input : Obj) (amount : Int) :
    Except JsError PaymentOutput × List RemoteCall :=
  match sessionOrder? input with
  | none => (.error (.typeError "refundPayment: cannot read purchaseUnits of undefined"), [])
  | some o =>
    match o.purchaseUnits with
    | some (pu0 :: rest) =>
      match pu0.payments with
      | some pay =>
        let isAlreadyCaptured := (pu0 :: rest).any hasCaptures
        if !isAlreadyCaptured then
          (.error (.thrown "Cannot refund an uncaptured payment"), [])
        else
          match pay.captures with
          | some (c0 :: _) =>
            let body := convertAmount amount (pu0.amount.bind PaypalAmount.currencyCode)
            match env.refundRes c0.id (some body) with
            | .error _ =>
              (.error (.thrown "An error occurred in refundPayment"),
                [.refundCapturedPayment c0.id (some body)])
            | .ok _ =>
              match retrievePayment env input with
              | (.ok out, t) => (.ok out, .refundCapturedPayment c0.id (some body) :: t)
              | (.error _, t) =>
                (.error (.thrown "An error occurred in refundPayment"),
                  .refundCapturedPayment c0.id (some body) :: t)
          | _ =>
            (.error (.typeError "refundPayment: cannot read index 0 of captures"), [])
      | none => (.error (.thrown "An error occurred in refundPayment"), [])
    | _ => (.error (.thrown "An error occurred in refundPayment"), [])

/-- `initiatePayment`: creates an order with intent `AUTHORIZE` and one
purchase unit carrying the converted amount; on a truthy `result.id`
returns `{ id: result.id, data: {...paymentData, paypalOrderId: result.id,
paypalOrder: result} }`; otherwise (missing id or remote error, the
`ApiError` case only adding a log line) throws
`Error("Initialize payment failed")`.  `amount` and `currencyCode` are the
corresponding fields of the input object. -/
def initiatePayment (env : PaypalEnv) (input : Obj) (amount : Int)
    (currencyCode : String) :
    Except JsError InitiateOutput × List RemoteCall :=
  let call : RemoteCall :=
    .createOrder "AUTHORIZE" (convertAmount amount (some currencyCode))
  match env.createOrderRes with
  | .ok result =>
    match result.id with
    | some rid =>
      if rid == "" then
        (.error (.thrown "Initialize payment failed"), [call])
      else
        (.ok ⟨rid, input ++ [("paypalOrderId", .str rid), ("paypalOrder", .order result)]⟩,
          [call])
    | none => (.error (.thrown "Initialize payment failed"), [call])
  | .error _ => (.error (.thrown "Initialize payment failed"), [call])

/-- The `paypalOrderId` value `authorizePayment` stores:
`(retrievedPayment.data!.paypalOrder! as PaypalOrder).id`, which may be
`undefined`. -/
def jvalOfOptId : Option String → JVal
  | some s => .str s
  | none => .jsUndefined

/-- `authorizePayment`: reads the status via `getPaymentStatus`, re-fetches
via `retrievePayment`, and returns `{ data: {...paymentData, paypalOrder:
retrieved.data!.paypalOrder, paypalOrderId: (...).id}, status }`; any
failure is caught and re-thrown as `Error("Authorize payment failed")`. -/
def authorizePayment (env : PaypalEnv) (input : Obj) :
    Except JsError AuthorizeOutput × List RemoteCall :=
  match getPaymentStatus env input with
  | (.error _, t1) => (.error (.thrown "Authorize payment failed"), t1)
  | (.ok st, t1) =>
    match retrievePayment env input with
    | (.error _, t2) => (.error (.thrown "Authorize payment failed"), t1 ++ t2)
    | (.ok rout, t2) =>
      match getKey rout.data "paypalOrder" with
      | some (.order o) =>
        (.ok ⟨input ++ [("paypalOrder", .order o), ("paypalOrderId", jvalOfOptId o.id)],
            st.status⟩,
          t1 ++ t2)
      | _ => (.error (.thrown "Authorize payment failed"), t1 ++ t2)

/-- `updatePayment`: patches the order's amount (a `replace` op with the
converted amount) and returns the re-fetch; every failure inside the `try`
(including a malformed session, whose `TypeError` is caught) becomes the
generic update error. -/
def updatePayment (env : PaypalEnv) (input : Obj) (amount : Int)
    (currencyCode : String) :
    Except JsError PaymentOutput × List RemoteCall :=
  match sessionOrder? input with
  | none => (.error (.thrown "An error occurred in updatePayment"), [])
  | some o =>
    let body := convertAmount amount (some currencyCode)
    match env.patchRes o.id body with
    | .error _ =>
      (.error (.thrown "An error occurred in updatePayment"), [.patchOrder o.id body])
    | .ok _ =>
      match retrievePayment env input with
      | (.ok out, t) => (.ok out, .patchOrder o.id body :: t)
      | (.error _, t) =>
        (.error (.thrown "An error occurred in updatePayment"), .patchOrder o.id body :: t)

/-- `deletePayment`: pure pass-through, no remote call. -/
def deletePayment (input : Obj) : Except JsError Obj × List RemoteCall :=
  (.ok input, [])

/-- The provider's options record (all fields optional strings, as the
duck-typed options object may omit any of them). -/
structure ServiceOptions where
  oAuthClientId : Option String
  oAuthClientSecret : Option String
  environment : Option String
  deriving DecidableEq, Repr

/-- The SDK `Environment` the constructor selects. -/
inductive SdkEnvironment where
  | sandbox
  | production
  deriving DecidableEq, Repr

/-- The client configuration the constructor builds. -/
structure ClientConfig where
  oAuthClientId : String
  oAuthClientSecret : String
  environment : SdkEnvironment
  timeout : Nat
  deriving DecidableEq, Repr

/-- The constructor: builds the client iff all three options are truthy,
mapping environment `"sandbox"` to the sandbox SDK environment and every
other (truthy) value to production; otherwise throws the `MedusaError`
configuration error. -/
def constructService (o : ServiceOptions) : Except JsError ClientConfig :=
  if truthyStr o.oAuthClientId && truthyStr o.oAuthClientSecret &&
      truthyStr o.environment then
    .ok
      { oAuthClientId := o.oAuthClientId.getD ""
        oAuthClientSecret := o.oAuthClientSecret.getD ""
        environment :=
          if o.environment == some "sandbox" then .sandbox else .production
        timeout := 0 }
  else
    .error (.medusa
      "oAuthClientId, oAuthClientSecret and environment are required in the provider options.")

/-- `validateOptions`: rejects a falsy `oAuthClientId`, then a falsy
`oAuthClientSecret`, then an `environment` that is neither `"production"`
nor `"sandbox"` (strict equality, so a missing environment is also
rejected). -/
def validateOptions (o : ServiceOptions) : Except JsError Unit :=
  if !truthyStr o.oAuthClientId then
    .error (.medusa "oAuthClientId is required in the provider options.")
  else if !truthyStr o.oAuthClientSecret then
    .error (.medusa "oAuthClientSecret is required in the provider options.")
  else if o.environment ≠ some "production" ∧ o.environment ≠ some "sandbox" then
    .error (.medusa "environment needs to be either production or sandbox")
  else
    .ok ()

/-- The guard of `capturePayment`: `purchaseUnits?.length &&
purchaseUnits[0].payments && payments.authorizations?.length`. -/
def captureGuard (o : PaypalOrder) : Bool :=
  match o.purchaseUnits with
  | some (pu0 :: _) =>
    match pu0.payments with
    | some pay =>
      match pay.authorizations with
      | some (_ :: _) => true
      | _ => false
    | none => false
  | _ => false

/-- A remote call that does not mutate remote state (only `getOrder`
is). -/
def isReadOnlyCall : RemoteCall → Bool
  | .getOrder _ => true
  | _ => false

/-- The id-consistency property of a returned session payload: the
embedded order carries a non-empty id and `paypalOrderId` equals it. -/
def payloadIdConsistent (d : Obj) : Bool :=
  match getKey d "paypalOrder" with
  | some (.order o) =>
    match o.id with
    | some s =>
      !(s == "") &&
        (match getKey d "paypalOrderId" with
         | some (.str s2) => s2 == s
         | _ => false)
    | none => false
  | _ => false

/-- An environment whose every endpoint succeeds and whose every fetch
returns `o`; used to instantiate theorems on concrete runs. -/
def constEnv (o : PaypalOrder) : PaypalEnv :=
  { createOrderRes := .ok o
    getOrderRes := fun _ => .ok o
    captureRes := fun _ => .ok ()
    voidRes := fun _ => .ok ()
    refundRes := fun _ _ => .ok ()
    patchRes := fun _ _ => .ok () }

/-- A minimal well-formed session input embedding the order `o`. -/
def sessionInput (o : PaypalOrder) : Obj :=
  [("data", .obj [("paypalOrder", .order o)])]

section Lemmas

/-- Key lookup distributes over append with the later (overriding) part
looked up first. -/
theorem getKey_append (a b : Obj) (k : String) :
    getKey (a ++ b) k =
      match getKey b k with
      | some v => some v
      | none => getKey a k := by
  induction a with
  | nil =>
    simp only [List.nil_append, getKey]
    cases getKey b k <;> rfl
  | cons p a ih =>
    obtain ⟨k0, v0⟩ := p
    show (match getKey (a ++ b) k with
        | some v2 => some v2
        | none => if k == k0 then some v0 else none) = _
    rw [ih]
    cases getKey b k <;> rfl

/-- Lookup in an object extended with two update fields: the second
update wins, then the first, then the original object. -/
theorem getKey_append_pair (a : Obj) (k1 k2 k : String) (v1 v2 : JVal) :
    getKey (a ++ [(k1, v1), (k2, v2)]) k =
      if k == k2 then some v2
      else if k == k1 then some v1
      else getKey a k := by
  rw [getKey_append]
  cases h2 : (k == k2) <;> cases h1 : (k == k1) <;> simp [getKey, h1, h2]

/-- Elimination for a successful `retrievePayment`: the session held an
order, the fetch succeeded with a truthy id, the output is the spread of
the whole input with the two updated fields, and the trace is the single
fetch. -/
theorem retrievePayment_ok_elim {env : PaypalEnv} {input : Obj}
    {out : PaymentOutput} {t : List RemoteCall}
    (h : retrievePayment env input = (Except.ok out, t)) :
    ∃ o result rid, sessionOrder? input = some o ∧
      env.getOrderRes o.id = Except.ok result ∧ result.id = some rid ∧
      (rid == "") = false ∧
      out.data =
        input ++ [("paypalOrderId", JVal.str rid), ("paypalOrder", JVal.order result)] ∧
      t = [RemoteCall.getOrder o.id] := by
  cases hso : sessionOrder? input with
  | none => simp [retrievePayment, hso] at h
  | some o =>
    cases hg : env.getOrderRes o.id with
    | error e => cases e <;> simp [retrievePayment, hso, hg] at h
    | ok result =>
      cases hid : result.id with
      | none => simp [retrievePayment, hso, hg, hid] at h
      | some rid =>
        cases hrid : (rid == "") with
        | true => simp [retrievePayment, hso, hg, hid, hrid] at h
        | false =>
          simp only [retrievePayment, hso, hg, hid, hrid, Bool.false_eq_true,
            if_false, Prod.mk.injEq, Except.ok.injEq] at h
          exact ⟨o, result, rid, rfl, hg, hid, hrid, by rw [← h.1], h.2.symm⟩

/-- Every call `retrievePayment` issues is the read-only fetch. -/
theorem retrievePayment_trace_readonly (env : PaypalEnv) (input : Obj) :
    ((retrievePayment env input).2.all isReadOnlyCall) = true := by
  cases hso : sessionOrder? input with
  | none => simp [retrievePayment, hso]
  | some o =>
    cases hg : env.getOrderRes o.id with
    | error e => cases e <;> simp [retrievePayment, hso, hg, isReadOnlyCall]
    | ok result =>
      cases hid : result.id with
      | none => simp [retrievePayment, hso, hg, hid, isReadOnlyCall]
      | some rid =>
        cases hrid : (rid == "") <;>
          simp [retrievePayment, hso, hg, hid, hrid, isReadOnlyCall]

end Lemmas

/-- C1: for every remote order status, `getPaymentStatus` maps the fetched
order's status to the framework status per the table: `CREATED` to
`pending`; `SAVED`, `APPROVED` and `PAYER_ACTION_REQUIRED` to
`requires_more`; `VOIDED` to `canceled`; `COMPLETED` to `authorized`; any
status outside the table (or a missing one) to `pending`.  The first
conjunct ties the returned status of `getPaymentStatus` to
`mapOrderStatus` applied to the status of the order the fetch returned;
the remaining conjuncts are the table. -/
theorem c1_getPaymentStatus_status_table :
    (∀ (env : PaypalEnv) (input : Obj) (o ordr : PaypalOrder),
      sessionOrder? input = some o →
      env.getOrderRes o.id = Except.ok ordr →
      truthyStr ordr.id = true →
      getPaymentStatus env input =
        (Except.ok ⟨mapOrderStatus ordr.status⟩, [RemoteCall.getOrder o.id])) ∧
    mapOrderStatus (some PaypalOrderStatus.Created) = "pending" ∧
    mapOrderStatus (some PaypalOrderStatus.Saved) = "requires_more" ∧
    mapOrderStatus (some PaypalOrderStatus.Approved) = "requires_more" ∧
    mapOrderStatus (some PaypalOrderStatus.PayerActionRequired) = "requires_more" ∧
    mapOrderStatus (some PaypalOrderStatus.Voided) = "canceled" ∧
    mapOrderStatus (some PaypalOrderStatus.Completed) = "authorized" ∧
    (∀ s : Option String,
      s ∉ [some PaypalOrderStatus.Created, some PaypalOrderStatus.Saved,
        some PaypalOrderStatus.Approved, some PaypalOrderStatus.PayerActionRequired,
        some PaypalOrderStatus.Voided, some PaypalOrderStatus.Completed] →
      mapOrderStatus s = "pending") := by
  refine ⟨?_, rfl, rfl, rfl, rfl, rfl, rfl, ?_⟩
  · intro env input o ordr hso hg htr
    cases hid : ordr.id with
    | none => rw [hid] at htr; simp [truthyStr] at htr
    | some rid =>
      rw [hid] at htr
      have hrid : (rid == "") = false := by
        simp only [truthyStr, Bool.not_eq_true'] at htr
        simpa using htr
      have hr : retrievePayment env input =
          (Except.ok ⟨input ++ [("paypalOrderId", JVal.str rid),
              ("paypalOrder", JVal.order ordr)]⟩,
            [RemoteCall.getOrder o.id]) := by
        simp [retrievePayment, hso, hg, hid, hrid]
      have hkey : getKey (input ++ [("paypalOrderId", JVal.str rid),
          ("paypalOrder", JVal.order ordr)]) "paypalOrder" =
            some (JVal.order ordr) := by
        rw [getKey_append_pair]; rfl
      simp [getPaymentStatus, hr, hkey, hid]
  · intro s hs
    cases s with
    | none => rfl
    | some str =>
      simp only [List.mem_cons, List.not_mem_nil, or_false, not_or] at hs
      obtain ⟨h1, h2, h3, h4, h5, h6⟩ := hs
      simp only [mapOrderStatus, if_neg h1, if_neg h2, if_neg h3, if_neg h4,
        if_neg h5, if_neg h6]

/-- A voided one-purchase-unit order (Scenario D's "O3"). -/
def voidedOrder : PaypalOrder :=
  ⟨some "O3", some "VOIDED", some [⟨none, none, some ⟨none, none⟩⟩]⟩

/-- An order whose first purchase unit has an authorization and a capture. -/
def capturedOrder : PaypalOrder :=
  ⟨some "O6", some "CREATED",
    some [⟨some ⟨some "USD"⟩, none, some ⟨some [⟨some "A1"⟩], some [⟨some "C1"⟩]⟩⟩]⟩

/-- An order whose first purchase unit has an authorization and no capture. -/
def uncapturedOrder : PaypalOrder :=
  ⟨some "O7", some "CREATED", some [⟨none, none, some ⟨some [⟨some "A1"⟩], none⟩⟩]⟩

/-- An order whose first purchase unit has no captures while the second
purchase unit has one. -/
def mixedCaptureOrder : PaypalOrder :=
  ⟨some "O5", some "CREATED",
    some [⟨none, none, some ⟨some [⟨some "A1"⟩], none⟩⟩,
      ⟨none, none, some ⟨none, some [⟨some "C9"⟩]⟩⟩]⟩

/-- An order with purchase units present but empty. -/
def noUnitsOrder : PaypalOrder := ⟨some "O4", some "CREATED", some []⟩

theorem c1_witness :
    getPaymentStatus (constEnv ⟨some "O1", some "COMPLETED", none⟩)
        (sessionInput ⟨some "O1", some "COMPLETED", none⟩) =
      (Except.ok ⟨mapOrderStatus (some "COMPLETED")⟩,
        [RemoteCall.getOrder (some "O1")]) ∧
    mapOrderStatus (some "PENDING_APPROVAL") = "pending" :=
  ⟨c1_getPaymentStatus_status_table.1 (constEnv ⟨some "O1", some "COMPLETED", none⟩)
      (sessionInput ⟨some "O1", some "COMPLETED", none⟩)
      ⟨some "O1", some "COMPLETED", none⟩ ⟨some "O1", some "COMPLETED", none⟩
      rfl rfl rfl,
    c1_getPaymentStatus_status_table.2.2.2.2.2.2.2 (some "PENDING_APPROVAL")
      (by decide)⟩

/-- C2 counterexample: on the voided order "O3" the idempotency shortcut
of `cancelPayment` still issues a remote call — the read-only re-fetch of
the order via `retrievePayment` — so "issues no remote call at all" is
false at this input (though no mutation is issued). -/
theorem c2_counterexample :
    (cancelPayment (constEnv voidedOrder) (sessionInput voidedOrder)).2 =
      [RemoteCall.getOrder (some "O3")] ∧
    [RemoteCall.getOrder (some "O3")] ≠ ([] : List RemoteCall) :=
  ⟨rfl, by decide⟩

/-- C2 (amended): for every session payload whose embedded order has at
least one purchase unit with a payments sub-object, if the order's status
is voided, or completed with a truthy invoice identifier on the first
purchase unit, then `cancelPayment` issues no remote mutation — it returns
exactly `retrievePayment`'s result and every remote call it issues is the
read-only order fetch. -/
theorem c2_cancel_shortcut_no_mutation :
    ∀ (env : PaypalEnv) (input : Obj) (o : PaypalOrder) (pu0 : PurchaseUnit)
      (rest : List PurchaseUnit),
      sessionOrder? input = some o →
      o.purchaseUnits = some (pu0 :: rest) →
      pu0.payments.isSome = true →
      (o.status = some PaypalOrderStatus.Voided ∨
        (o.status = some PaypalOrderStatus.Completed ∧
          truthyStr pu0.invoiceId = true)) →
      cancelPayment env input = retrievePayment env input ∧
      ((cancelPayment env input).2.all isReadOnlyCall) = true := by
  intro env input o pu0 rest hso hpu hpay hst
  cases hp : pu0.payments with
  | none => rw [hp] at hpay; simp at hpay
  | some pay =>
    have hcancel : cancelPayment env input = retrievePayment env input := by
      rcases hst with hst | ⟨hst, hinv⟩
      · simp [cancelPayment, hso, hpu, hp, hst]
      · simp [cancelPayment, hso, hpu, hp, hst, hinv]
    refine ⟨hcancel, ?_⟩
    rw [hcancel]
    exact retrievePayment_trace_readonly env input

theorem c2_witness :
    cancelPayment (constEnv voidedOrder) (sessionInput voidedOrder) =
      retrievePayment (constEnv voidedOrder) (sessionInput voidedOrder) ∧
    ((cancelPayment (constEnv voidedOrder) (sessionInput voidedOrder)).2.all
      isReadOnlyCall) = true :=
  c2_cancel_shortcut_no_mutation (constEnv voidedOrder) (sessionInput voidedOrder)
    voidedOrder ⟨none, none, some ⟨none, none⟩⟩ [] rfl rfl rfl (Or.inl rfl)

/-- C3 counterexample: on an order whose capture lives on the second
purchase unit (the first has none), the claim demands a refund against the
first purchase unit's first capture; the code instead dereferences the
first purchase unit's absent captures list, the `TypeError` is caught, and
`cancelPayment` fails with the generic cancel error issuing no remote call
— in particular no refund call is in the issued trace. -/
theorem c3_counterexample :
    cancelPayment (constEnv mixedCaptureOrder) (sessionInput mixedCaptureOrder) =
      (Except.error (JsError.thrown "An error occurred in cancelPayment"), []) ∧
    RemoteCall.refundCapturedPayment (some "C9") none ∉ ([] : List RemoteCall) :=
  ⟨rfl, by decide⟩

/-- C3 (amended): outside the idempotency-shortcut states, `cancelPayment`
issues a refund against the first purchase unit's first capture when the
*first* purchase unit has at least one capture; it issues a void against
the first purchase unit's first authorization when no purchase unit has a
capture (and such an authorization exists); and when some purchase unit
has a capture but the first one has none, it fails with the generic
cancel error without issuing any remote call. -/
theorem c3_cancel_refund_vs_void :
    ∀ (env : PaypalEnv) (input : Obj) (o : PaypalOrder) (pu0 : PurchaseUnit)
      (rest : List PurchaseUnit) (pay : PaypalPayments),
      sessionOrder? input = some o →
      o.purchaseUnits = some (pu0 :: rest) →
      pu0.payments = some pay →
      (o.status == some PaypalOrderStatus.Voided) = false →
      ((o.status == some PaypalOrderStatus.Completed) &&
        truthyStr pu0.invoiceId) = false →
      ((∀ (c0 : PaypalCapture) (cs : List PaypalCapture),
          pay.captures = some (c0 :: cs) →
          (cancelPayment env input).2.head? =
            some (RemoteCall.refundCapturedPayment c0.id none)) ∧
        ((pu0 :: rest).any hasCaptures = false →
          ∀ (a0 : PaypalAuthorization) (auths : List PaypalAuthorization),
            pay.authorizations = some (a0 :: auths) →
            (cancelPayment env input).2.head? =
              some (RemoteCall.voidPayment a0.id)) ∧
        ((pu0 :: rest).any hasCaptures = true →
          (pay.captures = none ∨ pay.captures = some []) →
          cancelPayment env input =
            (Except.error (JsError.thrown "An error occurred in cancelPayment"), []))) := by
  intro env input o pu0 rest pay hso hpu hp hst1 hst2
  refine ⟨?_, ?_, ?_⟩
  · intro c0 cs hcap
    have hany : ((pu0 :: rest).any hasCaptures) = true := by
      simp [List.any_cons, hasCaptures, hp, hcap]
    cases hrf : env.refundRes c0.id none with
    | error e =>
      simp [cancelPayment, hso, hpu, hp, hst1, hst2, hany, hcap, hrf]
    | ok u =>
      cases hrp : retrievePayment env input with
      | mk res t =>
        cases res <;>
          simp [cancelPayment, hso, hpu, hp, hst1, hst2, hany, hcap, hrf, hrp]
  · intro hany a0 auths hauth
    cases hvd : env.voidRes a0.id with
    | error e =>
      simp [cancelPayment, hso, hpu, hp, hst1, hst2, hany, hauth, hvd]
    | ok u =>
      cases hrp : retrievePayment env input with
      | mk res t =>
        cases res <;>
          simp [cancelPayment, hso, hpu, hp, hst1, hst2, hany, hauth, hvd, hrp]
  · intro hany hcap
    cases hcap with
    | inl hc => simp [cancelPayment, hso, hpu, hp, hst1, hst2, hany, hc]
    | inr hc => simp [cancelPayment, hso, hpu, hp, hst1, hst2, hany, hc]

theorem c3_witness :
    (cancelPayment (constEnv capturedOrder) (sessionInput capturedOrder)).2.head? =
      some (RemoteCall.refundCapturedPayment (some "C1") none) ∧
    (cancelPayment (constEnv uncapturedOrder) (sessionInput uncapturedOrder)).2.head? =
      some (RemoteCall.voidPayment (some "A1")) :=
  ⟨(c3_cancel_refund_vs_void (constEnv capturedOrder) (sessionInput capturedOrder)
      capturedOrder ⟨some ⟨some "USD"⟩, none, some ⟨some [⟨some "A1"⟩], some [⟨some "C1"⟩]⟩⟩
      [] ⟨some [⟨some "A1"⟩], some [⟨some "C1"⟩]⟩ rfl rfl rfl rfl rfl).1
      ⟨some "C1"⟩ [] rfl,
    (c3_cancel_refund_vs_void (constEnv uncapturedOrder) (sessionInput uncapturedOrder)
      uncapturedOrder ⟨none, none, some ⟨some [⟨some "A1"⟩], none⟩⟩
      [] ⟨some [⟨some "A1"⟩], none⟩ rfl rfl rfl rfl rfl).2.1
      rfl ⟨some "A1"⟩ [] rfl⟩

/-- C4 counterexample: on an order with an *empty* purchase-unit list no
capture exists on any purchase unit, yet `refundPayment` fails with the
generic refund error, not with "Cannot refund an uncaptured payment". -/
theorem c4_counterexample :
    refundPayment (constEnv noUnitsOrder) (sessionInput noUnitsOrder) 5 =
      (Except.error (JsError.thrown "An error occurred in refundPayment"), []) ∧
    JsError.thrown "An error occurred in refundPayment" ≠
      JsError.thrown "Cannot refund an uncaptured payment" :=
  ⟨rfl, by decide⟩

/-- C4 (amended): for every session payload whose embedded order has at
least one purchase unit and whose first purchase unit carries a payments
sub-object, if no purchase unit has a capture then `refundPayment` fails
with "Cannot refund an uncaptured payment" and issues no remote call,
regardless of the requested amount. -/
theorem c4_refund_requires_capture :
    ∀ (env : PaypalEnv) (input : Obj) (amount : Int) (o : PaypalOrder)
      (pu0 : PurchaseUnit) (rest : List PurchaseUnit) (pay : PaypalPayments),
      sessionOrder? input = some o →
      o.purchaseUnits = some (pu0 :: rest) →
      pu0.payments = some pay →
      ((pu0 :: rest).any hasCaptures) = false →
      refundPayment env input amount =
        (Except.error (JsError.thrown "Cannot refund an uncaptured payment"), []) := by
  intro env input amount o pu0 rest pay hso hpu hp hany
  simp [refundPayment, hso, hpu, hp, hany]

theorem c4_witness :
    refundPayment (constEnv uncapturedOrder) (sessionInput uncapturedOrder) 5 =
      (Except.error (JsError.thrown "Cannot refund an uncaptured payment"), []) :=
  c4_refund_requires_capture (constEnv uncapturedOrder) (sessionInput uncapturedOrder)
    5 uncapturedOrder ⟨none, none, some ⟨some [⟨some "A1"⟩], none⟩⟩ []
    ⟨some [⟨some "A1"⟩], none⟩ rfl rfl rfl rfl

/-- C5: `capturePayment` fails with the generic capture error (and issues
no remote call) whenever the guard — a purchase unit exists, its payments
sub-object exists, and it has at least one authorization — fails;
otherwise the first remote call it issues is the capture against the first
authorization's identifier, and when that call succeeds it returns exactly
the re-fetched full order (`retrievePayment`'s result, whose own failure is
re-labelled as the generic capture error), preceded in the trace by the
capture call. -/
theorem c5_capture_requires_authorization :
    ∀ (env : PaypalEnv) (input : Obj) (o : PaypalOrder),
      sessionOrder? input = some o →
      ((captureGuard o = false →
          capturePayment env input =
            (Except.error (JsError.thrown "An error occurred in capturePayment"), [])) ∧
        (∀ (pu0 : PurchaseUnit) (rest : List PurchaseUnit) (pay : PaypalPayments)
          (a0 : PaypalAuthorization) (auths : List PaypalAuthorization),
          o.purchaseUnits = some (pu0 :: rest) →
          pu0.payments = some pay →
          pay.authorizations = some (a0 :: auths) →
          (capturePayment env input).2.head? =
            some (RemoteCall.captureAuthorizedPayment a0.id) ∧
          (env.captureRes a0.id = Except.ok () →
            capturePayment env input =
              ((retrievePayment env input).1.mapError
                  (fun _ => JsError.thrown "An error occurred in capturePayment"),
                RemoteCall.captureAuthorizedPayment a0.id ::
                  (retrievePayment env input).2)))) := by
  intro env input o hso
  constructor
  · intro hguard
    cases hpu : o.purchaseUnits with
    | none => simp [capturePayment, hso, hpu]
    | some pus =>
      cases pus with
      | nil => simp [capturePayment, hso, hpu]
      | cons pu0 rest =>
        cases hp : pu0.payments with
        | none => simp [capturePayment, hso, hpu, hp]
        | some pay =>
          cases hau : pay.authorizations with
          | none => simp [capturePayment, hso, hpu, hp, hau]
          | some la =>
            cases la with
            | nil => simp [capturePayment, hso, hpu, hp, hau]
            | cons a0 auths =>
              simp [captureGuard, hpu, hp, hau] at hguard
  · intro pu0 rest pay a0 auths hpu hp hau
    cases hc : env.captureRes a0.id with
    | error e =>
      constructor
      · simp [capturePayment, hso, hpu, hp, hau, hc]
      · intro hok; simp at hok
    | ok u =>
      cases hrp : retrievePayment env input with
      | mk res t =>
        cases res with
        | ok out =>
          constructor
          · simp [capturePayment, hso, hpu, hp, hau, hc, hrp]
          · intro _
            simp [capturePayment, hso, hpu, hp, hau, hc, hrp, Except.mapError]
        | error e =>
          constructor
          · simp [capturePayment, hso, hpu, hp, hau, hc, hrp]
          · intro _
            simp [capturePayment, hso, hpu, hp, hau, hc, hrp, Except.mapError]

theorem c5_witness :
    capturePayment (constEnv noUnitsOrder) (sessionInput noUnitsOrder) =
      (Except.error (JsError.thrown "An error occurred in capturePayment"), []) ∧
    capturePayment (constEnv capturedOrder) (sessionInput capturedOrder) =
      ((retrievePayment (constEnv capturedOrder) (sessionInput capturedOrder)).1.mapError
          (fun _ => JsError.thrown "An error occurred in capturePayment"),
        RemoteCall.captureAuthorizedPayment (some "A1") ::
          (retrievePayment (constEnv capturedOrder) (sessionInput capturedOrder)).2) :=
  ⟨(c5_capture_requires_authorization (constEnv noUnitsOrder)
      (sessionInput noUnitsOrder) noUnitsOrder rfl).1 rfl,
    ((c5_capture_requires_authorization (constEnv capturedOrder)
      (sessionInput capturedOrder) capturedOrder rfl).2
      ⟨some ⟨some "USD"⟩, none, some ⟨some [⟨some "A1"⟩], some [⟨some "C1"⟩]⟩⟩ []
      ⟨some [⟨some "A1"⟩], some [⟨some "C1"⟩]⟩ ⟨some "A1"⟩ [] rfl rfl rfl).2 rfl⟩

/-- C6 counterexample: with all three options present but the environment
set to "staging" — a value that is neither "sandbox" nor "production" —
construction of the adapter *succeeds* (selecting the production SDK
environment), so the claim that construction fails on any environment
value outside the two allowed ones is false. -/
theorem c6_counterexample :
    constructService ⟨some "id", some "secret", some "staging"⟩ =
      Except.ok ⟨"id", "secret", SdkEnvironment.production, 0⟩ ∧
    (some "staging" : Option String) ≠ some "sandbox" ∧
    (some "staging" : Option String) ≠ some "production" :=
  ⟨rfl, by decide, by decide⟩

/-- C6 (amended): construction fails with the configuration error exactly
when one of the three options is missing or empty (falsy); when all three
are truthy it succeeds, mapping environment "sandbox" to the sandbox SDK
environment and every other truthy value to production.  Only the static
`validateOptions` entry point enforces the full enum restriction: it
accepts exactly the options with truthy client id and secret and an
environment equal to "production" or "sandbox". -/
theorem c6_options_validation :
    ∀ o : ServiceOptions,
      ((truthyStr o.oAuthClientId && truthyStr o.oAuthClientSecret &&
          truthyStr o.environment) = false →
        constructService o = Except.error (JsError.medusa
          "oAuthClientId, oAuthClientSecret and environment are required in the provider options.")) ∧
      ((truthyStr o.oAuthClientId && truthyStr o.oAuthClientSecret &&
          truthyStr o.environment) = true →
        constructService o = Except.ok
          ⟨o.oAuthClientId.getD "", o.oAuthClientSecret.getD "",
            (if o.environment == some "sandbox" then SdkEnvironment.sandbox
              else SdkEnvironment.production), 0⟩) ∧
      (validateOptions o = Except.ok () ↔
        (truthyStr o.oAuthClientId = true ∧ truthyStr o.oAuthClientSecret = true ∧
          (o.environment = some "production" ∨ o.environment = some "sandbox"))) := by
  intro o
  refine ⟨?_, ?_, ?_⟩
  · intro h; simp [constructService, h]
  · intro h; simp [constructService, h]
  · cases h1 : truthyStr o.oAuthClientId with
    | false => simp [validateOptions, h1]
    | true =>
      cases h2 : truthyStr o.oAuthClientSecret with
      | false => simp [validateOptions, h1, h2]
      | true =>
        by_cases h3 : o.environment = some "production" ∨ o.environment = some "sandbox"
        · have hcond : ¬(o.environment ≠ some "production" ∧
              o.environment ≠ some "sandbox") := by
            rcases h3 with h3 | h3 <;> simp [h3]
          simp [validateOptions, h1, h2, hcond, h3]
        · rw [not_or] at h3
          simp [validateOptions, h1, h2, h3.1, h3.2]

theorem c6_witness :
    constructService ⟨none, some "secret", some "sandbox"⟩ =
      Except.error (JsError.medusa
        "oAuthClientId, oAuthClientSecret and environment are required in the provider options.") ∧
    constructService ⟨some "id", some "secret", some "staging"⟩ =
      Except.ok ⟨"id", "secret", SdkEnvironment.production, 0⟩ ∧
    validateOptions ⟨some "id", some "secret", some "sandbox"⟩ = Except.ok () :=
  ⟨(c6_options_validation ⟨none, some "secret", some "sandbox"⟩).1 rfl,
    (c6_options_validation ⟨some "id", some "secret", some "staging"⟩).2.1 rfl,
    (c6_options_validation ⟨some "id", some "secret", some "sandbox"⟩).2.2.mpr
      ⟨rfl, rfl, Or.inr rfl⟩⟩

/-- Elimination for a successful `authorizePayment`: both inner calls
succeeded, and the output data is the spread of the whole input with the
embedded order and its id written over it. -/
theorem authorizePayment_ok_elim {env : PaypalEnv} {input : Obj}
    {out : AuthorizeOutput} {t : List RemoteCall}
    (h : authorizePayment env input = (Except.ok out, t)) :
    ∃ st t1 rout t2 o, getPaymentStatus env input = (Except.ok st, t1) ∧
      retrievePayment env input = (Except.ok rout, t2) ∧
      getKey rout.data "paypalOrder" = some (JVal.order o) ∧
      out.data =
        input ++ [("paypalOrder", JVal.order o), ("paypalOrderId", jvalOfOptId o.id)] ∧
      out.status = st.status ∧ t = t1 ++ t2 := by
  cases hst : getPaymentStatus env input with
  | mk sres t1 =>
    cases sres with
    | error e => simp [authorizePayment, hst] at h
    | ok st =>
      cases hrp : retrievePayment env input with
      | mk rres t2 =>
        cases rres with
        | error e => simp [authorizePayment, hst, hrp] at h
        | ok rout =>
          cases hk : getKey rout.data "paypalOrder" with
          | none => simp [authorizePayment, hst, hrp, hk] at h
          | some v =>
            cases v with
            | order o =>
              obtain ⟨odata, ostat⟩ := out
              simp only [authorizePayment, hst, hrp, hk, Prod.mk.injEq,
                Except.ok.injEq, AuthorizeOutput.mk.injEq] at h
              exact ⟨st, t1, rout, t2, o, rfl, rfl, hk, h.1.1.symm, h.1.2.symm,
                h.2.symm⟩
            | str s => simp [authorizePayment, hst, hrp, hk] at h
            | num n => simp [authorizePayment, hst, hrp, hk] at h
            | jsUndefined => simp [authorizePayment, hst, hrp, hk] at h
            | obj fs => simp [authorizePayment, hst, hrp, hk] at h

/-- The remote order of the C7 run. -/
def c7Order : PaypalOrder := ⟨some "O1", some "COMPLETED", none⟩

/-- The prior session payload of the C7 run: the embedded order plus one
extra key the framework stored. -/
def c7Payload : Obj := [("paypalOrder", .order c7Order), ("sessionNote", .str "keep")]

/-- The full `retrievePayment` input object of the C7 run: the payload
under its `data` key plus a top-level request field. -/
def c7Input : Obj := [("data", .obj c7Payload), ("amount", .num 700)]

/-- The data object `retrievePayment` actually returns on the C7 run: the
*whole input object* spread, plus the two updated fields. -/
def c7OutData : Obj :=
  c7Input ++ [("paypalOrderId", .str "O1"), ("paypalOrder", .order c7Order)]

/-- C7 counterexample: the payload returned by a successful
`retrievePayment` is not the input payload round-tripped with only the two
updated fields changed: the run below drops the payload's `sessionNote`
key from the returned payload (it survives only nested inside a new `data`
key), because the code spreads the whole input object, not the input's
`data` payload. -/
theorem c7_counterexample :
    retrievePayment (constEnv c7Order) c7Input =
      (Except.ok ⟨c7OutData⟩, [RemoteCall.getOrder (some "O1")]) ∧
    getKey c7Payload "sessionNote" = some (JVal.str "keep") ∧
    getKey c7OutData "sessionNote" = none ∧
    ("sessionNote" == "paypalOrderId") = false ∧
    ("sessionNote" == "paypalOrder") = false :=
  ⟨rfl, rfl, rfl, by decide, by decide⟩

/-- C7 (amended): the payload returned by a successful `retrievePayment`
or `authorizePayment` is the *whole input object* (its `data` field and
top-level request fields included) round-tripped unmodified except for the
two explicitly updated fields `paypalOrderId` and `paypalOrder`: looking
up any other key in the returned payload gives that key's value in the
input object. -/
theorem c7_output_spreads_whole_input :
    (∀ (env : PaypalEnv) (input : Obj) (out : PaymentOutput)
        (t : List RemoteCall) (k : String),
      retrievePayment env input = (Except.ok out, t) →
      (k == "paypalOrderId") = false → (k == "paypalOrder") = false →
      getKey out.data k = getKey input k) ∧
    (∀ (env : PaypalEnv) (input : Obj) (out : AuthorizeOutput)
        (t : List RemoteCall) (k : String),
      authorizePayment env input = (Except.ok out, t) →
      (k == "paypalOrderId") = false → (k == "paypalOrder") = false →
      getKey out.data k = getKey input k) := by
  constructor
  · intro env input out t k h hk1 hk2
    obtain ⟨o, result, rid, -, -, -, -, hdata, -⟩ := retrievePayment_ok_elim h
    rw [hdata, getKey_append_pair, hk2, hk1]
    rfl
  · intro env input out t k h hk1 hk2
    obtain ⟨st, t1, rout, t2, o, -, -, -, hdata, -, -⟩ := authorizePayment_ok_elim h
    rw [hdata, getKey_append_pair, hk1, hk2]
    rfl

theorem c7_witness :
    getKey c7OutData "sessionNote" = getKey c7Input "sessionNote" :=
  c7_output_spreads_whole_input.1 (constEnv c7Order) c7Input ⟨c7OutData⟩
    [RemoteCall.getOrder (some "O1")] "sessionNote" rfl rfl rfl

/-- An environment whose every endpoint fails with an `ApiError` carrying
status code 500. -/
def apiErrorEnv : PaypalEnv :=
  { createOrderRes := .error (.api 500 "hdrs")
    getOrderRes := fun _ => .error (.api 500 "hdrs")
    captureRes := fun _ => .error (.api 500 "hdrs")
    voidRes := fun _ => .error (.api 500 "hdrs")
    refundRes := fun _ _ => .error (.api 500 "hdrs")
    patchRes := fun _ _ => .error (.api 500 "hdrs") }

/-- C8: when the remote fetch errors, `retrievePayment` does throw a
coarse-grained generic error preserving nothing beyond the logged status
code and headers — but the error is *not* named for the retrieval
operation: its message is "Initialize payment failed", the initiation
operation's message (`initiatePayment` throws the identical one), a
copy-paste slip contradicting the spec's operation-named error policy.
This theorem evaluates both operations on a failing run to exhibit the
shared message. -/
theorem c8_retrieve_error_reuses_initiate_message :
    retrievePayment apiErrorEnv (sessionInput ⟨some "O8", some "CREATED", none⟩) =
      (Except.error (JsError.thrown "Initialize payment failed"),
        [RemoteCall.getOrder (some "O8")]) ∧
    (initiatePayment apiErrorEnv [] 10 "USD").1 =
      Except.error (JsError.thrown "Initialize payment failed") :=
  ⟨rfl, rfl⟩

/-- C9: on a session payload whose embedded order's first purchase unit
has a payments sub-object but no captures while the second purchase unit
has a capture, `refundPayment` passes the captured-payment check and then
dereferences the first purchase unit's absent captures list outside any
try/catch, so it fails with a raw runtime `TypeError` — distinct from both
the uncaptured-payment error and the generic refund error — and issues no
remote call. -/
theorem c9_refund_raw_type_error :
    refundPayment (constEnv mixedCaptureOrder) (sessionInput mixedCaptureOrder) 7 =
      (Except.error (JsError.typeError "refundPayment: cannot read index 0 of captures"),
        []) ∧
    JsError.typeError "refundPayment: cannot read index 0 of captures" ≠
      JsError.thrown "Cannot refund an uncaptured payment" ∧
    JsError.typeError "refundPayment: cannot read index 0 of captures" ≠
      JsError.thrown "An error occurred in refundPayment" :=
  ⟨rfl, by decide, by decide⟩

/-- A data object of the retrieve/initiate shape — the input spread plus
`paypalOrderId` then `paypalOrder` — satisfies the id-consistency
property whenever the embedded order's id is truthy. -/
theorem payloadIdConsistent_retrieve_data {input : Obj} {result : PaypalOrder}
    {rid : String} (hid : result.id = some rid) (hrid : (rid == "") = false) :
    payloadIdConsistent
      (input ++ [("paypalOrderId", JVal.str rid), ("paypalOrder", JVal.order result)]) =
      true := by
  have hpo : getKey
      (input ++ [("paypalOrderId", JVal.str rid), ("paypalOrder", JVal.order result)])
      "paypalOrder" = some (JVal.order result) := by
    rw [getKey_append_pair]; rfl
  have hpid : getKey
      (input ++ [("paypalOrderId", JVal.str rid), ("paypalOrder", JVal.order result)])
      "paypalOrderId" = some (JVal.str rid) := by
    rw [getKey_append_pair]; rfl
  simp [payloadIdConsistent, hpo, hpid, hid, hrid]

/-- A data object of the authorize shape — the input spread plus
`paypalOrder` then `paypalOrderId` — satisfies the id-consistency
property whenever the embedded order's id is truthy. -/
theorem payloadIdConsistent_authorize_data {input : Obj} {o : PaypalOrder}
    {s : String} (hid : o.id = some s) (hs : (s == "") = false) :
    payloadIdConsistent
      (input ++ [("paypalOrder", JVal.order o), ("paypalOrderId", jvalOfOptId o.id)]) =
      true := by
  have hpo : getKey
      (input ++ [("paypalOrder", JVal.order o), ("paypalOrderId", jvalOfOptId o.id)])
      "paypalOrder" = some (JVal.order o) := by
    rw [getKey_append_pair]; rfl
  have hpid : getKey
      (input ++ [("paypalOrder", JVal.order o), ("paypalOrderId", jvalOfOptId o.id)])
      "paypalOrderId" = some (jvalOfOptId o.id) := by
    rw [getKey_append_pair]; rfl
  rw [hid] at hpo hpid
  simp only [jvalOfOptId] at hpo hpid
  simp [payloadIdConsistent, hid, jvalOfOptId, hpo, hpid, hs]

/-- A payload returned by a successful `retrievePayment` satisfies the
id-consistency property. -/
theorem retrievePayment_ok_payloadIdConsistent {env : PaypalEnv} {input : Obj}
    {out : PaymentOutput} {t : List RemoteCall}
    (h : retrievePayment env input = (Except.ok out, t)) :
    payloadIdConsistent out.data = true := by
  obtain ⟨o, result, rid, -, -, hid, hrid, hdata, -⟩ := retrievePayment_ok_elim h
  rw [hdata]
  exact payloadIdConsistent_retrieve_data hid hrid

/-- A successful `capturePayment` returns a payload produced by a
successful `retrievePayment` on the same input. -/
theorem capturePayment_ok_from_retrieve {env : PaypalEnv} {input : Obj}
    {out : PaymentOutput} {t : List RemoteCall}
    (h : capturePayment env input = (Except.ok out, t)) :
    ∃ t2, retrievePayment env input = (Except.ok out, t2) := by
  cases hso : sessionOrder? input with
  | none => simp [capturePayment, hso] at h
  | some o =>
    cases hpu : o.purchaseUnits with
    | none => simp [capturePayment, hso, hpu] at h
    | some pus =>
      cases pus with
      | nil => simp [capturePayment, hso, hpu] at h
      | cons pu0 rest =>
        cases hp : pu0.payments with
        | none => simp [capturePayment, hso, hpu, hp] at h
        | some pay =>
          cases hau : pay.authorizations with
          | none => simp [capturePayment, hso, hpu, hp, hau] at h
          | some la =>
            cases la with
            | nil => simp [capturePayment, hso, hpu, hp, hau] at h
            | cons a0 auths =>
              cases hc : env.captureRes a0.id with
              | error e => simp [capturePayment, hso, hpu, hp, hau, hc] at h
              | ok u =>
                cases hrp : retrievePayment env input with
                | mk res t2 =>
                  cases res with
                  | error e =>
                    simp [capturePayment, hso, hpu, hp, hau, hc, hrp] at h
                  | ok out2 =>
                    simp only [capturePayment, hso, hpu, hp, hau, hc, hrp,
                      Prod.mk.injEq, Except.ok.injEq] at h
                    exact ⟨t2, by rw [h.1]⟩

/-- A successful `cancelPayment` returns a payload produced by a
successful `retrievePayment` on the same input. -/
theorem cancelPayment_ok_from_retrieve {env : PaypalEnv} {input : Obj}
    {out : PaymentOutput} {t : List RemoteCall}
    (h : cancelPayment env input = (Except.ok out, t)) :
    ∃ t2, retrievePayment env input = (Except.ok out, t2) := by
  cases hso : sessionOrder? input with
  | none => simp [cancelPayment, hso] at h
  | some o =>
    cases hpu : o.purchaseUnits with
    | none => simp [cancelPayment, hso, hpu] at h
    | some pus =>
      cases pus with
      | nil => simp [cancelPayment, hso, hpu] at h
      | cons pu0 rest =>
        cases hp : pu0.payments with
        | none => simp [cancelPayment, hso, hpu, hp] at h
        | some pay =>
          cases hsc : ((o.status == some PaypalOrderStatus.Voided) ||
              ((o.status == some PaypalOrderStatus.Completed) &&
                truthyStr pu0.invoiceId)) with
          | true =>
            simp only [cancelPayment, hso, hpu, hp, hsc, if_true] at h
            exact ⟨t, h⟩
          | false =>
            cases hany : ((pu0 :: rest).any hasCaptures) with
            | true =>
              cases hcap : pay.captures with
              | none => simp [cancelPayment, hso, hpu, hp, hsc, hany, hcap] at h
              | some cs =>
                cases cs with
                | nil => simp [cancelPayment, hso, hpu, hp, hsc, hany, hcap] at h
                | cons c0 cs2 =>
                  cases hrf : env.refundRes c0.id none with
                  | error e =>
                    simp [cancelPayment, hso, hpu, hp, hsc, hany, hcap, hrf] at h
                  | ok u =>
                    cases hrp : retrievePayment env input with
                    | mk res t2 =>
                      cases res with
                      | error e =>
                        simp [cancelPayment, hso, hpu, hp, hsc, hany, hcap, hrf,
                          hrp] at h
                      | ok out2 =>
                        simp [cancelPayment, hso, hpu, hp, hsc, hany, hcap,
                          hrf, hrp] at h
                        exact ⟨t2, by rw [h.1]⟩
            | false =>
              cases hau : pay.authorizations with
              | none => simp [cancelPayment, hso, hpu, hp, hsc, hany, hau] at h
              | some la =>
                cases la with
                | nil => simp [cancelPayment, hso, hpu, hp, hsc, hany, hau] at h
                | cons a0 auths =>
                  cases hvd : env.voidRes a0.id with
                  | error e =>
                    simp [cancelPayment, hso, hpu, hp, hsc, hany, hau, hvd] at h
                  | ok u =>
                    cases hrp : retrievePayment env input with
                    | mk res t2 =>
                      cases res with
                      | error e =>
                        simp [cancelPayment, hso, hpu, hp, hsc, hany, hau, hvd,
                          hrp] at h
                      | ok out2 =>
                        simp [cancelPayment, hso, hpu, hp, hsc, hany, hau,
                          hvd, hrp] at h
                        exact ⟨t2, by rw [h.1]⟩

/-- A successful `refundPayment` returns a payload produced by a
successful `retrievePayment` on the same input. -/
theorem refundPayment_ok_from_retrieve {env : PaypalEnv} {input : Obj}
    {amount : Int} {out : PaymentOutput} {t : List RemoteCall}
    (h : refundPayment env input amount = (Except.ok out, t)) :
    ∃ t2, retrievePayment env input = (Except.ok out, t2) := by
  cases hso : sessionOrder? input with
  | none => simp [refundPayment, hso] at h
  | some o =>
    cases hpu : o.purchaseUnits with
    | none => simp [refundPayment, hso, hpu] at h
    | some pus =>
      cases pus with
      | nil => simp [refundPayment, hso, hpu] at h
      | cons pu0 rest =>
        cases hp : pu0.payments with
        | none => simp [refundPayment, hso, hpu, hp] at h
        | some pay =>
          cases hany : ((pu0 :: rest).any hasCaptures) with
          | false => simp [refundPayment, hso, hpu, hp, hany] at h
          | true =>
            cases hcap : pay.captures with
            | none => simp [refundPayment, hso, hpu, hp, hany, hcap] at h
            | some cs =>
              cases cs with
              | nil => simp [refundPayment, hso, hpu, hp, hany, hcap] at h
              | cons c0 cs2 =>
                cases hrf : env.refundRes c0.id
                    (some (convertAmount amount (pu0.amount.bind PaypalAmount.currencyCode))) with
                | error e =>
                  simp [refundPayment, hso, hpu, hp, hany, hcap, hrf] at h
                | ok u =>
                  cases hrp : retrievePayment env input with
                  | mk res t2 =>
                    cases res with
                    | error e =>
                      simp [refundPayment, hso, hpu, hp, hany, hcap, hrf, hrp] at h
                    | ok out2 =>
                      simp [refundPayment, hso, hpu, hp, hany, hcap, hrf,
                        hrp] at h
                      exact ⟨t2, by rw [h.1]⟩

/-- A successful `updatePayment` returns a payload produced by a
successful `retrievePayment` on the same input. -/
theorem updatePayment_ok_from_retrieve {env : PaypalEnv} {input : Obj}
    {amount : Int} {ccode : String} {out : PaymentOutput} {t : List RemoteCall}
    (h : updatePayment env input amount ccode = (Except.ok out, t)) :
    ∃ t2, retrievePayment env input = (Except.ok out, t2) := by
  cases hso : sessionOrder? input with
  | none => simp [updatePayment, hso] at h
  | some o =>
    cases hpt : env.patchRes o.id (convertAmount amount (some ccode)) with
    | error e => simp [updatePayment, hso, hpt] at h
    | ok u =>
      cases hrp : retrievePayment env input with
      | mk res t2 =>
        cases res with
        | error e => simp [updatePayment, hso, hpt, hrp] at h
        | ok out2 =>
          simp only [updatePayment, hso, hpt, hrp, Prod.mk.injEq,
            Except.ok.injEq] at h
          exact ⟨t2, by rw [h.1]⟩

/-- C10: every operation that returns a session payload successfully —
`initiatePayment`, `retrievePayment`, `authorizePayment`, and the
operations whose successful result is `retrievePayment`'s
(`capturePayment`, `cancelPayment`, `refundPayment`, `updatePayment`) —
yields a payload whose embedded order carries a non-empty identifier with
the denormalized `paypalOrderId` field equal to it
(`payloadIdConsistent`); for `initiatePayment` the returned top-level id
is moreover non-empty.  Success is only possible when the remote response
carried a truthy order identifier, which is what the property records. -/
theorem c10_payload_id_consistency :
    (∀ (env : PaypalEnv) (input : Obj) (amount : Int) (ccode : String)
        (out : InitiateOutput) (t : List RemoteCall),
      initiatePayment env input amount ccode = (Except.ok out, t) →
      payloadIdConsistent out.data = true ∧ (out.id == "") = false) ∧
    (∀ (env : PaypalEnv) (input : Obj) (out : PaymentOutput) (t : List RemoteCall),
      retrievePayment env input = (Except.ok out, t) →
      payloadIdConsistent out.data = true) ∧
    (∀ (env : PaypalEnv) (input : Obj) (out : AuthorizeOutput) (t : List RemoteCall),
      authorizePayment env input = (Except.ok out, t) →
      payloadIdConsistent out.data = true) ∧
    (∀ (env : PaypalEnv) (input : Obj) (out : PaymentOutput) (t : List RemoteCall),
      capturePayment env input = (Except.ok out, t) →
      payloadIdConsistent out.data = true) ∧
    (∀ (env : PaypalEnv) (input : Obj) (out : PaymentOutput) (t : List RemoteCall),
      cancelPayment env input = (Except.ok out, t) →
      payloadIdConsistent out.data = true) ∧
    (∀ (env : PaypalEnv) (input : Obj) (amount : Int) (out : PaymentOutput)
        (t : List RemoteCall),
      refundPayment env input amount = (Except.ok out, t) →
      payloadIdConsistent out.data = true) ∧
    (∀ (env : PaypalEnv) (input : Obj) (amount : Int) (ccode : String)
        (out : PaymentOutput) (t : List RemoteCall),
      updatePayment env input amount ccode = (Except.ok out, t) →
      payloadIdConsistent out.data = true) := by
  refine ⟨?_, ?_, ?_, ?_, ?_, ?_, ?_⟩
  · intro env input amount ccode out t h
    cases hcr : env.createOrderRes with
    | error e => simp [initiatePayment, hcr] at h
    | ok result =>
      cases hid : result.id with
      | none => simp [initiatePayment, hcr, hid] at h
      | some rid =>
        cases hrid : (rid == "") with
        | true => simp [initiatePayment, hcr, hid, hrid] at h
        | false =>
          obtain ⟨oid, odata⟩ := out
          simp only [initiatePayment, hcr, hid, hrid, Bool.false_eq_true,
            if_false, Prod.mk.injEq, Except.ok.injEq, InitiateOutput.mk.injEq] at h
          obtain ⟨⟨hoid, hodata⟩, -⟩ := h
          refine ⟨?_, ?_⟩
          · rw [← hodata]
            exact payloadIdConsistent_retrieve_data hid hrid
          · rw [← hoid]; exact hrid
  · intro env input out t h
    exact retrievePayment_ok_payloadIdConsistent h
  · intro env input out t h
    obtain ⟨st, t1, rout, t2, o, -, hrp, hk, hdata, -, -⟩ := authorizePayment_ok_elim h
    obtain ⟨o2, result, rid, -, -, hid, hrid, hrdata, -⟩ := retrievePayment_ok_elim hrp
    have hkey : getKey rout.data "paypalOrder" = some (JVal.order result) := by
      rw [hrdata, getKey_append_pair]; rfl
    rw [hkey] at hk
    have ho : o = result := by
      have := hk
      simp only [Option.some.injEq] at this
      cases this
      rfl
    rw [hdata, ho]
    exact payloadIdConsistent_authorize_data hid hrid
  · intro env input out t h
    obtain ⟨t2, hr⟩ := capturePayment_ok_from_retrieve h
    exact retrievePayment_ok_payloadIdConsistent hr
  · intro env input out t h
    obtain ⟨t2, hr⟩ := cancelPayment_ok_from_retrieve h
    exact retrievePayment_ok_payloadIdConsistent hr
  · intro env input amount out t h
    obtain ⟨t2, hr⟩ := refundPayment_ok_from_retrieve h
    exact retrievePayment_ok_payloadIdConsistent hr
  · intro env input amount ccode out t h
    obtain ⟨t2, hr⟩ := updatePayment_ok_from_retrieve h
    exact retrievePayment_ok_payloadIdConsistent hr

/-- The data object the retrieve-shaped successful runs on `capturedOrder`
return. -/
def c10Data : Obj :=
  sessionInput capturedOrder ++
    [("paypalOrderId", .str "O6"), ("paypalOrder", .order capturedOrder)]

/-- The data object the successful `authorizePayment` run on
`capturedOrder` returns. -/
def c10AuthData : Obj :=
  sessionInput capturedOrder ++
    [("paypalOrder", .order capturedOrder), ("paypalOrderId", .str "O6")]

theorem c10_witness :
    (payloadIdConsistent [("paypalOrderId", JVal.str "O6"),
        ("paypalOrder", JVal.order capturedOrder)] = true ∧
      ("O6" == "") = false) ∧
    payloadIdConsistent c10Data = true ∧
    payloadIdConsistent c10AuthData = true ∧
    payloadIdConsistent c10Data = true ∧
    payloadIdConsistent c10Data = true ∧
    payloadIdConsistent c10Data = true ∧
    payloadIdConsistent c10Data = true :=
  ⟨c10_payload_id_consistency.1 (constEnv capturedOrder) [] 10 "USD"
      ⟨"O6", [("paypalOrderId", JVal.str "O6"), ("paypalOrder", JVal.order capturedOrder)]⟩
      [RemoteCall.createOrder "AUTHORIZE" ⟨some "USD", 10⟩] rfl,
    c10_payload_id_consistency.2.1 (constEnv capturedOrder)
      (sessionInput capturedOrder) ⟨c10Data⟩ [RemoteCall.getOrder (some "O6")] rfl,
    c10_payload_id_consistency.2.2.1 (constEnv capturedOrder)
      (sessionInput capturedOrder) ⟨c10AuthData, "pending"⟩
      [RemoteCall.getOrder (some "O6"), RemoteCall.getOrder (some "O6")] rfl,
    c10_payload_id_consistency.2.2.2.1 (constEnv capturedOrder)
      (sessionInput capturedOrder) ⟨c10Data⟩
      [RemoteCall.captureAuthorizedPayment (some "A1"),
        RemoteCall.getOrder (some "O6")] rfl,
    c10_payload_id_consistency.2.2.2.2.1 (constEnv capturedOrder)
      (sessionInput capturedOrder) ⟨c10Data⟩
      [RemoteCall.refundCapturedPayment (some "C1") none,
        RemoteCall.getOrder (some "O6")] rfl,
    c10_payload_id_consistency.2.2.2.2.2.1 (constEnv capturedOrder)
      (sessionInput capturedOrder) 5 ⟨c10Data⟩
      [RemoteCall.refundCapturedPayment (some "C1") (some ⟨some "USD", 5⟩),
        RemoteCall.getOrder (some "O6")] rfl,
    c10_payload_id_consistency.2.2.2.2.2.2 (constEnv capturedOrder)
      (sessionInput capturedOrder) 5 "USD" ⟨c10Data⟩
      [RemoteCall.patchOrder (some "O6") ⟨some "USD", 5⟩,
        RemoteCall.getOrder (some "O6")] rfl⟩
